/-
Verification of the LinkedIn director-profile match-scoring engine
(src/src/data_collection/linkedin_verification.py).

The Python module is embedded shallowly: every public function of the
verification core is translated into an executable Lean definition over
`Option String` inputs (`none` models a pandas NaN cell, `some s` a string
cell).  Strings are processed as `List Char`; only ASCII behaviour of
Python's `str.lower`, `str.upper`, `\w`, `\s` and `str.isdigit` is modelled,
which covers every string the module manipulates (names, company names and
search-result titles from the S&P 500 pipeline are ASCII).

The two regular expressions of the module that are not plain literal
substring tests are modelled explicitly:
  * the credential-stripping pattern of extract_name_parts
    (a word-bounded alternation such as "Ph\.?D\.?|MBA|..." substituted by
    the empty string), including Python's left-to-right scan, ordered
    alternation, greedy optional dots and backtracking against the trailing
    word boundary;
  * the end-anchored legal-suffix patterns of clean_company_name_for_matching
    ("\s*,?\s*inc\.?\s*$" and friends), including the leftmost-match rule
    (which, as in the source, lets "inc" match inside "zinc");
  * the whole-word search "\b<literal>\b" used for name and company words.
-/
import Mathlib

namespace LinkedinVerification

/-! ### Character classes (ASCII model of Python `\w`, `\s`, lower/upper) -/

/-- Python regex `\w` on ASCII input: letters, digits and underscore. -/
def isWordChar (c : Char) : Bool := c.isAlphanum || c = '_'

/-- Python regex `\s` on ASCII input: space, tab, newline, carriage return,
form feed and vertical tab. -/
def isSpaceChar (c : Char) : Bool :=
  c = ' ' || c = '\t' || c = '\n' || c = '\r' || c = '\x0c' || c = '\x0b'

def lowerList (cs : List Char) : List Char := cs.map Char.toLower

def upperList (cs : List Char) : List Char := cs.map Char.toUpper

def dropWs (cs : List Char) : List Char := cs.dropWhile (fun c => isSpaceChar c)

/-- Python `str.strip()`: remove leading and trailing whitespace. -/
def stripList (cs : List Char) : List Char := ((dropWs cs).reverse.dropWhile (fun c => isSpaceChar c)).reverse

/-- Python `str.split()` (no separator): whitespace-run split, no empty tokens. -/
def splitWsAux : List Char → List Char → List (List Char)
  | [], acc => if acc.isEmpty then [] else [acc.reverse]
  | c :: rest, acc =>
    if isSpaceChar c then
      if acc.isEmpty then splitWsAux rest [] else acc.reverse :: splitWsAux rest []
    else splitWsAux rest (c :: acc)

def splitWs (cs : List Char) : List (List Char) := splitWsAux cs []

/-! ### Literal matching: Python `in` and `re.search(r'\b w \b', t)` -/

/-- Does `w` occur literally at the head of `cs`? -/
def litMatch : List Char → List Char → Bool
  | [], _ => true
  | _ :: _, [] => false
  | a :: as, b :: bs => a = b && litMatch as bs

/-- Python `w in t` (plain substring containment). -/
def containsSub (w cs : List Char) : Bool :=
  (List.range (cs.length + 1)).any (fun p => litMatch w (cs.drop p))

def charIsWordAt (cs : List Char) (i : Nat) : Bool :=
  match cs.get? i with
  | some c => isWordChar c
  | none => false

/-- Python regex `\b` at position `p` of `cs`: exactly one of the adjacent
characters is a word character (positions outside the string count as
non-word). -/
def boundaryAt (cs : List Char) (p : Nat) : Bool :=
  (if p = 0 then false else charIsWordAt cs (p - 1)) != charIsWordAt cs p

/-- Python `re.search(r'\b' + re.escape(w) + r'\b', cs) is not None`. -/
def wordSearch (w cs : List Char) : Bool :=
  (List.range (cs.length + 1)).any
    (fun p => boundaryAt cs p && litMatch w (cs.drop p) && boundaryAt cs (p + w.length))

/-! ### The credential-stripping regex of extract_name_parts

Pattern: `\b(Ph\.?D\.?|M\.?D\.?|MBA|M\.?B\.?A\.?|CPA|C\.?P\.?A\.?|J\.?D\.?|
Esq\.?|B\.?A\.?|B\.?S\.?|M\.?S\.?|M\.?P\.?H\.?|KBE|AC|OBE|CBE)\b`,
substituted by the empty string, case-insensitively.  Each alternative is a
sequence of literal letters and greedy optional dots; the trailing `\b` can
force backtracking out of a final optional dot (so "Ph.D." loses only
"Ph.D", leaving the final dot, exactly as in Python). -/

inductive CTok where
  | ch : Char → CTok
  | optDot : CTok
deriving DecidableEq, Repr

def nextIsWord : List Char → Bool
  | c :: _ => isWordChar c
  | [] => false

/-- Match one alternative of the credential pattern against a prefix of the
input, returning the wordness of the last consumed character and the
remaining input.  `lastW` tracks the last consumed character so the trailing
`\b` can be tested; optional dots are consumed greedily with backtracking. -/
def credSeq : List CTok → Bool → List Char → Option (Bool × List Char)
  | [], lastW, rest => if lastW != nextIsWord rest then some (lastW, rest) else none
  | CTok.ch a :: ts, _, c :: rest => if Char.toLower c = a then credSeq ts true rest else none
  | CTok.ch _ :: _, _, [] => none
  | CTok.optDot :: ts, lastW, cs =>
    match cs with
    | '.' :: rest =>
      match credSeq ts false rest with
      | some r => some r
      | none => credSeq ts lastW ('.' :: rest)
    | _ => credSeq ts lastW cs

/-- The alternatives of the credential pattern, in source order, lowercased
(the substitution runs with re.IGNORECASE). -/
def credAlts : List (List CTok) :=
  [ [CTok.ch 'p', CTok.ch 'h', CTok.optDot, CTok.ch 'd', CTok.optDot],
    [CTok.ch 'm', CTok.optDot, CTok.ch 'd', CTok.optDot],
    [CTok.ch 'm', CTok.ch 'b', CTok.ch 'a'],
    [CTok.ch 'm', CTok.optDot, CTok.ch 'b', CTok.optDot, CTok.ch 'a', CTok.optDot],
    [CTok.ch 'c', CTok.ch 'p', CTok.ch 'a'],
    [CTok.ch 'c', CTok.optDot, CTok.ch 'p', CTok.optDot, CTok.ch 'a', CTok.optDot],
    [CTok.ch 'j', CTok.optDot, CTok.ch 'd', CTok.optDot],
    [CTok.ch 'e', CTok.ch 's', CTok.ch 'q', CTok.optDot],
    [CTok.ch 'b', CTok.optDot, CTok.ch 'a', CTok.optDot],
    [CTok.ch 'b', CTok.optDot, CTok.ch 's', CTok.optDot],
    [CTok.ch 'm', CTok.optDot, CTok.ch 's', CTok.optDot],
    [CTok.ch 'm', CTok.optDot, CTok.ch 'p', CTok.optDot, CTok.ch 'h', CTok.optDot],
    [CTok.ch 'k', CTok.ch 'b', CTok.ch 'e'],
    [CTok.ch 'a', CTok.ch 'c'],
    [CTok.ch 'o', CTok.ch 'b', CTok.ch 'e'],
    [CTok.ch 'c', CTok.ch 'b', CTok.ch 'e'] ]

def tryAltsAux : List (List CTok) → List Char → Option (Bool × List Char)
  | [], _ => none
  | alt :: more, cs =>
    match credSeq alt false cs with
    | some r => some r
    | none => tryAltsAux more cs

/-- Left-to-right scan of `re.sub(credPattern, '', name)`.  A match may only
start where the leading `\b` holds; since every alternative begins with a
letter that means the previous character is not a word character (`prevW`).
After a removal the scan resumes right after the removed span, with `prevW`
taken from the last removed character, as Python's lookaround does.  `fuel`
bounds the recursion; every step consumes at least one character, so
`length + 1` fuel always suffices. -/
def credScanAux : Nat → Bool → List Char → List Char
  | 0, _, cs => cs
  | _ + 1, _, [] => []
  | fuel + 1, prevW, c :: rest =>
    if prevW then c :: credScanAux fuel (isWordChar c) rest
    else
      match tryAltsAux credAlts (c :: rest) with
      | some (lastW, remaining) => credScanAux fuel lastW remaining
      | none => c :: credScanAux fuel (isWordChar c) rest

def credStrip (cs : List Char) : List Char := credScanAux (cs.length + 1) false cs

/-! ### extract_name_parts -/

structure NameParts where
  first_names : List String
  last_names : List String
deriving DecidableEq, Repr

/-- The nickname dictionary of extract_name_parts, in source (insertion)
order, which the reverse lookup loop iterates in. -/
def nicknames : List (String × List String) :=
  [ ("robert", ["bob", "rob", "bobby", "bert"]),
    ("william", ["bill", "will", "billy", "willy", "liam"]),
    ("richard", ["rick", "dick", "rich", "ricky"]),
    ("james", ["jim", "jimmy", "jamie"]),
    ("timothy", ["tim", "timmy"]),
    ("thomas", ["tom", "tommy"]),
    ("michael", ["mike", "mick", "mickey"]),
    ("joseph", ["joe", "joey"]),
    ("christopher", ["chris", "kit"]),
    ("anthony", ["tony", "ant"]),
    ("steven", ["steve", "stevie"]),
    ("stephen", ["steve", "stevie"]),
    ("edward", ["ed", "eddie", "ted", "teddy"]),
    ("charles", ["charlie", "chuck", "chas"]),
    ("daniel", ["dan", "danny"]),
    ("matthew", ["matt", "matty"]),
    ("andrew", ["andy", "drew"]),
    ("david", ["dave", "davey"]),
    ("kenneth", ["ken", "kenny"]),
    ("ronald", ["ron", "ronny", "ronnie"]),
    ("donald", ["don", "donny", "donnie"]),
    ("raymond", ["ray"]),
    ("lawrence", ["larry", "lars"]),
    ("nicholas", ["nick", "nicky"]),
    ("benjamin", ["ben", "benny", "benji"]),
    ("samuel", ["sam", "sammy"]),
    ("gregory", ["greg", "gregg"]),
    ("patrick", ["pat", "paddy"]),
    ("alexander", ["alex", "al", "xander"]),
    ("albert", ["al", "bert", "bertie"]),
    ("frederick", ["fred", "freddy", "freddie"]),
    ("gerald", ["jerry", "gerry"]),
    ("harold", ["harry", "hal"]),
    ("jeffrey", ["jeff", "geoff"]),
    ("jonathan", ["jon", "john", "jonny"]),
    ("peter", ["pete"]),
    ("phillip", ["phil"]),
    ("philip", ["phil"]),
    ("stanley", ["stan"]),
    ("theodore", ["ted", "teddy", "theo"]),
    ("walter", ["walt", "wally"]),
    ("elizabeth", ["liz", "lizzy", "beth", "betty", "eliza"]),
    ("margaret", ["maggie", "meg", "peggy", "marge"]),
    ("catherine", ["cathy", "kate", "katie", "cat"]),
    ("katherine", ["kathy", "kate", "katie", "kat"]),
    ("patricia", ["pat", "patty", "trish"]),
    ("jennifer", ["jen", "jenny"]),
    ("jessica", ["jess", "jessie"]),
    ("susan", ["sue", "susie", "suzy"]),
    ("rebecca", ["becky", "becca"]),
    ("barbara", ["barb", "barbie", "babs"]),
    ("dorothy", ["dot", "dotty", "dottie"]),
    ("deborah", ["deb", "debbie"]),
    ("nancy", ["nan"]),
    ("carolyn", ["carol", "carrie"]),
    ("christine", ["chris", "christy", "tina"]),
    ("virginia", ["ginny", "ginger"]),
    ("jacqueline", ["jackie", "jacqui"]),
    ("millard", ["mickey"]) ]

/-- Generational suffixes excluded from surname candidates. -/
def name_suffixes : List String :=
  ["jr", "sr", "ii", "iii", "iv", "v", "vi", "vii", "viii", "2nd", "3rd", "4th"]

/-- extract_name_parts: strip credentials, turn dots into spaces, tokenize,
take the first token (plus its nickname expansions, both directions) as
first-name variants, and scan the remaining tokens from the end for a
non-suffix surname, adding the final token of 3+-token names as a compound
fallback.  The dot substitution `re.sub(r'\.+', ' ', ...)` is modelled by
mapping each dot to a space: the subsequent whitespace tokenization makes a
run of spaces and a single space indistinguishable. -/
def extract_name_parts (director_name : Option String) : NameParts :=
  match director_name with
  | none => { first_names := [], last_names := [] }
  | some dn =>
    let cs0 := stripList dn.data
    let cs1 := credStrip cs0
    let cs2 := cs1.map (fun c => if c = '.' then ' ' else c)
    let parts := splitWs cs2
    match parts with
    | [] => { first_names := [], last_names := [] }
    | p0 :: restParts =>
      let first_name : String := String.mk (lowerList p0)
      let fnames0 : List String :=
        match nicknames.find? (fun kv => kv.fst = first_name) with
        | some kv => first_name :: kv.snd
        | none => [first_name]
      let first_names := nicknames.foldl
        (fun acc kv =>
          if kv.snd.contains first_name && !(acc.contains kv.fst) then acc ++ [kv.fst] else acc)
        fnames0
      let last_names0 : List String :=
        match restParts.reverse.find?
            (fun p => !(name_suffixes.contains (String.mk (lowerList p))) && decide (1 < p.length)) with
        | some p => [String.mk (lowerList p)]
        | none => []
      let last_names :=
        if 2 < (p0 :: restParts).length then
          match (p0 :: restParts).getLast? with
          | some lp =>
            let lpl := String.mk (lowerList lp)
            if !(name_suffixes.contains lpl) && !(last_names0.contains lpl) && decide (1 < lpl.length)
            then last_names0 ++ [lpl] else last_names0
          | none => last_names0
        else last_names0
      { first_names := first_names, last_names := last_names }

/-! ### clean_company_name_for_matching -/

/-- One end-anchored legal-suffix pattern `\s*,?\s*<body>\s*$`, where the
body is a sequence of literal characters and greedy optional dots (the only
optional dot is final, or internal dots are literal as in `l\.l\.c\.?`). -/
def sfxBody : List CTok → List Char → Bool
  | [], cs => (dropWs cs).isEmpty
  | CTok.ch a :: ts, c :: r => a = c && sfxBody ts r
  | CTok.ch _ :: _, [] => false
  | CTok.optDot :: ts, cs =>
    match cs with
    | '.' :: r => sfxBody ts r
    | _ => sfxBody ts cs

/-- Does the pattern match from this position through the end of string?
`\s*` / `,?` / `\s*` need no backtracking: their character classes are
disjoint from each other and from the letters of the body. -/
def sfxFrom (p : List CTok) (cs : List Char) : Bool :=
  let cs1 := dropWs cs
  let cs2 := match cs1 with
    | ',' :: r => dropWs r
    | _ => cs1
  sfxBody p cs2

/-- `re.sub(pat, '', name)` for an end-anchored pattern: delete from the
leftmost position where the pattern matches through to the end.  Like the
source patterns, this has no word boundary, so "inc" matches inside
"zinc". -/
def applySfx (p : List CTok) : List Char → List Char
  | [] => []
  | c :: rest => if sfxFrom p (c :: rest) then [] else c :: applySfx p rest

/-- The legal-entity suffix patterns, in source order (lowercase; the source
applies them to an already lowercased name with re.IGNORECASE). -/
def company_suffix_patterns : List (List CTok) :=
  [ [CTok.ch 'i', CTok.ch 'n', CTok.ch 'c', CTok.optDot],
    [CTok.ch 'c', CTok.ch 'o', CTok.ch 'r', CTok.ch 'p', CTok.optDot],
    [CTok.ch 'c', CTok.ch 'o', CTok.ch 'r', CTok.ch 'p', CTok.ch 'o', CTok.ch 'r', CTok.ch 'a', CTok.ch 't', CTok.ch 'i', CTok.ch 'o', CTok.ch 'n'],
    [CTok.ch 'l', CTok.ch 't', CTok.ch 'd', CTok.optDot],
    [CTok.ch 'l', CTok.ch 'l', CTok.ch 'c'],
    [CTok.ch 'l', CTok.ch '.', CTok.ch 'l', CTok.ch '.', CTok.ch 'c', CTok.optDot],
    [CTok.ch 'p', CTok.ch 'l', CTok.ch 'c'],
    [CTok.ch 'c', CTok.ch 'o', CTok.optDot],
    [CTok.ch 'c', CTok.ch 'o', CTok.ch 'm', CTok.ch 'p', CTok.ch 'a', CTok.ch 'n', CTok.ch 'y'],
    [CTok.ch 'l', CTok.ch 'i', CTok.ch 'm', CTok.ch 'i', CTok.ch 't', CTok.ch 'e', CTok.ch 'd'],
    [CTok.ch 'g', CTok.ch 'r', CTok.ch 'o', CTok.ch 'u', CTok.ch 'p'] ]

/-- Python noise-word stoplist of clean_company_name_for_matching. -/
def noise_words : List String :=
  ["the", "a", "an", "and", "or", "of", "in", "at", "by", "for", "on"]

/-- The pre-fallback stage of clean_company_name_for_matching: lowercase,
strip the legal suffixes, replace every character outside `[\w\s-]` by a
space, tokenize, and keep the non-noise non-numeric words whose length
exceeds 3 or which uppercase to the stripped original string. -/
def company_significant_words (cn : String) : List String :=
  let name0 := lowerList cn.data
  let name1 := company_suffix_patterns.foldl (fun acc p => applySfx p acc) name0
  let name2 := name1.map (fun c => if isWordChar c || isSpaceChar c || c = '-' then c else ' ')
  let words := splitWs name2
  let original_stripped := stripList cn.data
  words.foldl
    (fun acc w =>
      if noise_words.contains (String.mk w) || (!w.isEmpty && w.all Char.isDigit) then acc
      else if 3 < w.length || (2 ≤ w.length && decide (upperList w = original_stripped))
      then acc ++ [String.mk w]
      else acc)
    []

/-- clean_company_name_for_matching, including the short-name fallback: if
no significant word survived and the stripped original is 2 to 4 characters
long, that string (lowercased) is the sole significant word. -/
def clean_company_name_for_matching (company_name : Option String) : List String :=
  match company_name with
  | none => []
  | some cn =>
    let significant_words := company_significant_words cn
    let original_stripped := stripList cn.data
    if significant_words.isEmpty && (2 ≤ original_stripped.length && original_stripped.length ≤ 4)
    then [String.mk (lowerList original_stripped)]
    else significant_words

/-! ### verify_name_match, verify_company_match, check_board_role_keywords -/

structure NameMatchResult where
  verified : Bool
  match_type : String
  matched_first : Option String
  matched_last : Option String
deriving DecidableEq, Repr

/-- verify_name_match: search each first-name variant and each surname
candidate as a whole word in the lowercased title; the first variant found
(in insertion order) is reported. -/
def verify_name_match (director_name linkedin_title : Option String) : NameMatchResult :=
  match director_name, linkedin_title with
  | some dn, some ti =>
    let name_parts := extract_name_parts (some dn)
    let title_lower := lowerList ti.data
    let matched_first := name_parts.first_names.find? (fun fn => wordSearch fn.data title_lower)
    let matched_last := name_parts.last_names.find? (fun ln => wordSearch ln.data title_lower)
    match matched_first, matched_last with
    | some mf, some ml =>
      { verified := true, match_type := "both", matched_first := some mf, matched_last := some ml }
    | some mf, none =>
      { verified := true, match_type := "first_name", matched_first := some mf, matched_last := none }
    | none, some ml =>
      { verified := true, match_type := "last_name", matched_first := none, matched_last := some ml }
    | none, none =>
      { verified := false, match_type := "none", matched_first := none, matched_last := none }
  | _, _ => { verified := false, match_type := "none", matched_first := none, matched_last := none }

structure CompanyMatchResult where
  company_matched : Bool
  matched_words : List String
deriving DecidableEq, Repr

/-- verify_company_match: the company matches if any significant word occurs
as a whole word in the lowercased title. -/
def verify_company_match (company_name linkedin_title : Option String) : CompanyMatchResult :=
  match company_name, linkedin_title with
  | some cn, some ti =>
    let company_words := clean_company_name_for_matching (some cn)
    if company_words.isEmpty then { company_matched := false, matched_words := [] }
    else
      let title_lower := lowerList ti.data
      let matched_words := company_words.filter (fun w => wordSearch w.data title_lower)
      { company_matched := !matched_words.isEmpty, matched_words := matched_words }
  | _, _ => { company_matched := false, matched_words := [] }

structure BoardKeywordResult where
  has_board_keyword : Bool
  matched_keywords : List String
deriving DecidableEq, Repr

/-- The board-role keyword list of check_board_role_keywords, in source
order; each is tested as a plain substring (no word boundary) and all
matches are collected. -/
def board_keywords : List String :=
  [ "board member", "board of directors", "board director", "independent director",
    "non-executive director", "outside director", "board", "director", "trustee",
    "advisory board", "advisory council", "governance", "chairman", "chairwoman",
    "chairperson", "vice chair", "lead director", "presiding director" ]

def check_board_role_keywords (linkedin_title : Option String) : BoardKeywordResult :=
  match linkedin_title with
  | none => { has_board_keyword := false, matched_keywords := [] }
  | some ti =>
    let title_lower := lowerList ti.data
    let matched := board_keywords.filter (fun kw => containsSub kw.data title_lower)
    { has_board_keyword := !matched.isEmpty, matched_keywords := matched }

/-! ### The two scoring policies -/

inductive QualityFlag where
  | EXCELLENT
  | GOOD
  | FAIR
  | WEAK
  | WRONG_PERSON
  | NO_MATCH
deriving DecidableEq, Repr

/-- The four matching predicates, as the scoring policies derive them from
the sub-results (`matched_first is not None`, etc.). -/
def has_first (director_name linkedin_title : Option String) : Bool :=
  (verify_name_match director_name linkedin_title).matched_first.isSome

def has_last (director_name linkedin_title : Option String) : Bool :=
  (verify_name_match director_name linkedin_title).matched_last.isSome

def has_company (company_name linkedin_title : Option String) : Bool :=
  (verify_company_match company_name linkedin_title).company_matched

def has_board_keyword (linkedin_title : Option String) : Bool :=
  (check_board_role_keywords linkedin_title).has_board_keyword

structure GeneralMatchResult where
  match_score : Nat
  verified : Bool
  name_matched : Bool
  company_matched : Bool
  match_type : String
  quality_flag : QualityFlag
  matched_first : Option String
  matched_last : Option String
  matched_company_words : List String
deriving DecidableEq, Repr

/-- The if/elif cascade of verify_name_and_company_match, verbatim from the
source (including its redundant negations): score, flag and match type. -/
def generalRow (hf hl hc : Bool) : Nat × QualityFlag × String :=
  if hf && hl && hc then (100, QualityFlag.EXCELLENT, "full_name_and_company")
  else if hf && hl && !hc then (90, QualityFlag.GOOD, "full_name_no_company")
  else if (hf || hl) && hc then (70, QualityFlag.GOOD, "partial_name_with_company")
  else if (hf || hl) && !hc then (60, QualityFlag.WEAK, "partial_name_no_company")
  else if !(hf || hl) && hc then (30, QualityFlag.WRONG_PERSON, "company_only_no_name")
  else (0, QualityFlag.NO_MATCH, "no_match")

/-- verify_name_and_company_match (the general policy): threshold 70. -/
def verify_name_and_company_match
    (director_name company_name linkedin_title : Option String) : GeneralMatchResult :=
  let name_result := verify_name_match director_name linkedin_title
  let company_result := verify_company_match company_name linkedin_title
  let hf := name_result.matched_first.isSome
  let hl := name_result.matched_last.isSome
  let hc := company_result.company_matched
  let row := generalRow hf hl hc
  { match_score := row.fst,
    verified := decide (70 ≤ row.fst),
    name_matched := hf || hl,
    company_matched := hc,
    match_type := row.snd.snd,
    quality_flag := row.snd.fst,
    matched_first := name_result.matched_first,
    matched_last := name_result.matched_last,
    matched_company_words := company_result.matched_words }

structure DirectorMatchResult where
  match_score : Nat
  verified : Bool
  name_matched : Bool
  company_matched : Bool
  board_keyword_matched : Bool
  match_type : String
  quality_flag : QualityFlag
  matched_first : Option String
  matched_last : Option String
  matched_company_words : List String
  matched_board_keywords : List String
deriving DecidableEq, Repr

/-- The if/elif cascade of the second (effective) verify_director_match
definition, verbatim from the source.  Note that the `hf && hl` branch
precedes the `hf && hl && hc` branch, exactly as in the source. -/
def directorRow (hf hl hk hc : Bool) : Nat × QualityFlag × String :=
  if hf && hl && hk && hc then (100, QualityFlag.EXCELLENT, "full_name_board_keyword_company")
  else if hf && hl && hk then (95, QualityFlag.EXCELLENT, "full_name_with_board_keyword")
  else if hf && hl then (90, QualityFlag.GOOD, "full_name_typical_director")
  else if (hf || hl) && hk && hc then (85, QualityFlag.GOOD, "partial_name_board_keyword_company")
  else if (hf || hl) && hk then (80, QualityFlag.GOOD, "partial_name_with_board_keyword")
  else if hf && hl && hc then (70, QualityFlag.FAIR, "full_name_company_no_board")
  else if hf || hl then (60, QualityFlag.WEAK, "partial_name_only")
  else if hc then (30, QualityFlag.WRONG_PERSON, "company_only_no_name")
  else (0, QualityFlag.NO_MATCH, "no_match")

/-- verify_director_match — the second, effective definition of the source
(the one the module exports and verify_url_data calls): threshold 80. -/
def verify_director_match
    (director_name company_name linkedin_title : Option String) : DirectorMatchResult :=
  let name_result := verify_name_match director_name linkedin_title
  let company_result := verify_company_match company_name linkedin_title
  let board_result := check_board_role_keywords linkedin_title
  let hf := name_result.matched_first.isSome
  let hl := name_result.matched_last.isSome
  let hc := company_result.company_matched
  let hk := board_result.has_board_keyword
  let row := directorRow hf hl hk hc
  { match_score := row.fst,
    verified := decide (80 ≤ row.fst),
    name_matched := hf || hl,
    company_matched := hc,
    board_keyword_matched := hk,
    match_type := row.snd.snd,
    quality_flag := row.snd.fst,
    matched_first := name_result.matched_first,
    matched_last := name_result.matched_last,
    matched_company_words := company_result.matched_words,
    matched_board_keywords := board_result.matched_keywords }

/-- The if/elif cascade of the first, textually duplicated
verify_director_match definition (source lines 460-576), transcribed
separately so the two copies can be compared. -/
def directorRowFirst (hf hl hk hc : Bool) : Nat × QualityFlag × String :=
  if hf && hl && hk && hc then (100, QualityFlag.EXCELLENT, "full_name_board_keyword_company")
  else if hf && hl && hk then (95, QualityFlag.EXCELLENT, "full_name_with_board_keyword")
  else if hf && hl then (90, QualityFlag.GOOD, "full_name_typical_director")
  else if (hf || hl) && hk && hc then (85, QualityFlag.GOOD, "partial_name_board_keyword_company")
  else if (hf || hl) && hk then (80, QualityFlag.GOOD, "partial_name_with_board_keyword")
  else if hf && hl && hc then (70, QualityFlag.FAIR, "full_name_company_no_board")
  else if hf || hl then (60, QualityFlag.WEAK, "partial_name_only")
  else if hc then (30, QualityFlag.WRONG_PERSON, "company_only_no_name")
  else (0, QualityFlag.NO_MATCH, "no_match")

/-- The first, overridden verify_director_match definition of the source
(lines 460-576; its trailing statements after the return are dead code and
contribute nothing to its behaviour). -/
def verify_director_match_first
    (director_name company_name linkedin_title : Option String) : DirectorMatchResult :=
  let name_result := verify_name_match director_name linkedin_title
  let company_result := verify_company_match company_name linkedin_title
  let board_result := check_board_role_keywords linkedin_title
  let hf := name_result.matched_first.isSome
  let hl := name_result.matched_last.isSome
  let hc := company_result.company_matched
  let hk := board_result.has_board_keyword
  let row := directorRowFirst hf hl hk hc
  { match_score := row.fst,
    verified := decide (80 ≤ row.fst),
    name_matched := hf || hl,
    company_matched := hc,
    board_keyword_matched := hk,
    match_type := row.snd.snd,
    quality_flag := row.snd.fst,
    matched_first := name_result.matched_first,
    matched_last := name_result.matched_last,
    matched_company_words := company_result.matched_words,
    matched_board_keywords := board_result.matched_keywords }

/-! ### verify_url_data (the batch verifier) -/

/-- One DataFrame row of verify_url_data: the input columns consumed by the
loop plus the verification columns the function adds (every output column
is initialised for all rows before the loop runs). -/
structure UrlRow where
  linkedin_url : Option String
  search_status : Option String
  director_name : Option String
  company_name : Option String
  linkedin_title : Option String
  match_score : Nat
  verified : Bool
  quality_flag : QualityFlag
  match_type : String
  name_matched : Bool
  company_matched : Bool
  matched_name : Option String
  matched_company : Option String
  board_keyword_matched : Bool
  matched_board_keywords : Option String
deriving DecidableEq, Repr

/-- Python `', '.join`. -/
def joinComma : List String → String
  | [] => ""
  | [s] => s
  | s :: rest => s ++ ", " ++ joinComma rest

/-- The column initialisation block of verify_url_data: every row starts at
score 0, unverified, NO_MATCH, with all matched fields cleared. -/
def initRow (r : UrlRow) : UrlRow :=
  { r with
    match_score := 0, verified := false, quality_flag := QualityFlag.NO_MATCH,
    match_type := "no_match", name_matched := false, company_matched := false,
    matched_name := none, matched_company := none,
    board_keyword_matched := false, matched_board_keywords := none }

/-- The skip condition of the loop: no URL, or a search status other than
"found". -/
def skipRow (r : UrlRow) : Bool :=
  decide (r.linkedin_url = none ∨ r.search_status ≠ some "found")

/-- The result-storing block of the loop body: the director-policy
MatchResult fields written onto the initialised row (the matched name is
the "first last" / "first" / "last" string, matched company words and
board keywords are comma-joined, and `None` cells stay `None` when there
is nothing to store). -/
def scoredRowOf (r : UrlRow) : UrlRow :=
  let result := verify_director_match r.director_name r.company_name r.linkedin_title
  let matched_name : Option String :=
    match result.matched_first, result.matched_last with
    | some mf, some ml => some (mf ++ " " ++ ml)
    | some mf, none => some mf
    | none, some ml => some ml
    | none, none => none
  { initRow r with
    match_score := result.match_score, verified := result.verified,
    quality_flag := result.quality_flag, match_type := result.match_type,
    name_matched := result.name_matched, company_matched := result.company_matched,
    board_keyword_matched := result.board_keyword_matched,
    matched_name := matched_name,
    matched_company :=
      if result.matched_company_words.isEmpty then none
      else some (joinComma result.matched_company_words),
    matched_board_keywords :=
      if result.matched_board_keywords.isEmpty then none
      else some (joinComma result.matched_board_keywords) }

/-- The per-row body of the verify_url_data loop: skipped rows keep the
initialised default state; scored rows receive the director-policy
MatchResult fields, and, when `apply_filter` is set and the score falls
below `min_match_score`, lose their URL and get the "filtered_low_score"
status sentinel. -/
def scoreRow (apply_filter : Bool) (min_match_score : Nat) (r : UrlRow) : UrlRow :=
  if skipRow r then initRow r
  else
    let result := verify_director_match r.director_name r.company_name r.linkedin_title
    if apply_filter && decide (result.match_score < min_match_score)
    then { scoredRowOf r with linkedin_url := none, search_status := some "filtered_low_score" }
    else scoredRowOf r

/-- The quality-flag and no-URL tallies of verify_url_data. -/
structure BatchCounts where
  excellent : Nat
  good : Nat
  weak : Nat
  wrong_person : Nat
  fair : Nat
  no_match : Nat
  no_url : Nat
deriving DecidableEq, Repr

def zeroCounts : BatchCounts := ⟨0, 0, 0, 0, 0, 0, 0⟩

def qualityBump (c : BatchCounts) : QualityFlag → BatchCounts
  | QualityFlag.EXCELLENT => { c with excellent := c.excellent + 1 }
  | QualityFlag.GOOD => { c with good := c.good + 1 }
  | QualityFlag.FAIR => { c with fair := c.fair + 1 }
  | QualityFlag.WEAK => { c with weak := c.weak + 1 }
  | QualityFlag.WRONG_PERSON => { c with wrong_person := c.wrong_person + 1 }
  | QualityFlag.NO_MATCH => { c with no_match := c.no_match + 1 }

/-- The counter update of one loop iteration: skipped rows go to the
separate no-URL tally; scored rows bump their quality-flag bucket. -/
def countStep (c : BatchCounts) (r : UrlRow) : BatchCounts :=
  if skipRow r then { c with no_url := c.no_url + 1 }
  else qualityBump c (verify_director_match r.director_name r.company_name r.linkedin_title).quality_flag

def batch_counts (df : List UrlRow) : BatchCounts := df.foldl countStep zeroCounts

/-- `total_with_urls = sum(quality_counts.values())` of the report: the
number of scored rows. -/
def scoredTotal (c : BatchCounts) : Nat :=
  c.excellent + c.good + c.weak + c.wrong_person + c.fair + c.no_match

/-- verify_url_data: each row's update depends only on that row, so the
in-place loop is the map of `scoreRow`; the tallies it prints are
`batch_counts`. -/
def verify_url_data (apply_filter : Bool) (min_match_score : Nat) (df : List UrlRow) : List UrlRow :=
  df.map (scoreRow apply_filter min_match_score)

/-! ### The decision tables as the specification states them -/

/-- The general-policy decision table exactly as the specification writes
it, top-to-bottom, first match wins: full name & company 100 EXCELLENT;
full name, no company 90 GOOD; partial name & company 70 GOOD; partial
name, no company 60 WEAK; no name & company 30 WRONG_PERSON; nothing
0 NO_MATCH. -/
def generalPolicySpec (hf hl hc : Bool) : Nat × QualityFlag :=
  if hf && hl && hc then (100, QualityFlag.EXCELLENT)
  else if hf && hl then (90, QualityFlag.GOOD)
  else if (hf || hl) && hc then (70, QualityFlag.GOOD)
  else if hf || hl then (60, QualityFlag.WEAK)
  else if hc then (30, QualityFlag.WRONG_PERSON)
  else (0, QualityFlag.NO_MATCH)

/-! ### Proof infrastructure -/

theorem general_match_score_eq (dn cn t : Option String) :
    (verify_name_and_company_match dn cn t).match_score
      = (generalRow (has_first dn t) (has_last dn t) (has_company cn t)).fst := rfl

theorem general_quality_flag_eq (dn cn t : Option String) :
    (verify_name_and_company_match dn cn t).quality_flag
      = (generalRow (has_first dn t) (has_last dn t) (has_company cn t)).snd.fst := rfl

theorem director_match_score_eq (dn cn t : Option String) :
    (verify_director_match dn cn t).match_score
      = (directorRow (has_first dn t) (has_last dn t) (has_board_keyword t) (has_company cn t)).fst := rfl

theorem generalRow_spec_eq (hf hl hc : Bool) :
    ((generalRow hf hl hc).fst, (generalRow hf hl hc).snd.fst) = generalPolicySpec hf hl hc := by
  cases hf <;> cases hl <;> cases hc <;> rfl

/-! ### Claim theorems -/

/-- C3: for every input triple, verify_name_and_company_match returns the
score and flag of the first matching row of the general decision table
(full name & company 100 EXCELLENT; full name, no company 90 GOOD; partial
name & company 70 GOOD; partial name, no company 60 WEAK; no name & company
30 WRONG_PERSON; nothing 0 NO_MATCH), and its verified flag equals
(score >= 70). -/
theorem spec_C3_general_policy_table (dn cn t : Option String) :
    ((verify_name_and_company_match dn cn t).match_score,
      (verify_name_and_company_match dn cn t).quality_flag)
        = generalPolicySpec (has_first dn t) (has_last dn t) (has_company cn t)
  ∧ (verify_name_and_company_match dn cn t).verified
        = decide (70 ≤ (verify_name_and_company_match dn cn t).match_score) :=
  ⟨generalRow_spec_eq (has_first dn t) (has_last dn t) (has_company cn t), rfl⟩

/-- C9: the two textually duplicated verify_director_match definitions of
the source (lines 460-576 and the effective 629-745) are extensionally
equal: both bodies produce the same MatchResult on every input, so the
duplication is behaviorally inert. -/
theorem spec_C9_duplicate_director_defs (dn cn t : Option String) :
    verify_director_match_first dn cn t = verify_director_match dn cn t := rfl

/-- C1: counter-evidence for the director decision table as claimed.  On an
input where the predicates are exactly full name, company, no board keyword
(the claimed "full name & company (no keyword) -> 70 FAIR" row), the code
returns 90 GOOD with verified=true: the `has_first and has_last` branch of
the source precedes the `has_first and has_last and has_company` branch, so
the 70 FAIR row is dead code and the claimed table is not what the function
computes. -/
theorem spec_C1_director_table_dead_fair_row :
    has_first (some "Jane Smith") (some "jane smith works at acme widgets") = true
  ∧ has_last (some "Jane Smith") (some "jane smith works at acme widgets") = true
  ∧ has_company (some "Acme Widgets") (some "jane smith works at acme widgets") = true
  ∧ has_board_keyword (some "jane smith works at acme widgets") = false
  ∧ (verify_director_match (some "Jane Smith") (some "Acme Widgets")
      (some "jane smith works at acme widgets")).match_score = 90
  ∧ (verify_director_match (some "Jane Smith") (some "Acme Widgets")
      (some "jane smith works at acme widgets")).quality_flag = QualityFlag.GOOD
  ∧ (verify_director_match (some "Jane Smith") (some "Acme Widgets")
      (some "jane smith works at acme widgets")).verified = true := by
  exact ⟨rfl, rfl, rfl, rfl, rfl, rfl, rfl⟩

/-- C2: the specification's own worked example.  The predicates come out as
the claim says (has_first via the "timothy" -> "tim" nickname expansion,
has_last, has_company, no board keyword), but the code returns score 90,
flag GOOD, verified=true — not the claimed 70 / FAIR / false — because the
full-name branch fires before the dead full-name-and-company branch. -/
theorem spec_C2_timothy_cook_example :
    verify_director_match (some "Timothy D. Cook") (some "Apple Inc.")
        (some "Tim Cook - CEO at Apple | LinkedIn")
      = { match_score := 90, verified := true, name_matched := true, company_matched := true,
          board_keyword_matched := false, match_type := "full_name_typical_director",
          quality_flag := QualityFlag.GOOD, matched_first := some "tim",
          matched_last := some "cook", matched_company_words := ["apple"],
          matched_board_keywords := [] } := by
  rfl

theorem directorRow_mono_kw (hf hl hc : Bool) :
    (directorRow hf hl false hc).fst ≤ (directorRow hf hl true hc).fst := by
  cases hf <;> cases hl <;> cases hc <;> decide

theorem directorRow_mono_company (hf hl hk : Bool) :
    (directorRow hf hl hk false).fst ≤ (directorRow hf hl hk true).fst := by
  cases hf <;> cases hl <;> cases hk <;> decide

theorem generalRow_mono_company (hf hl : Bool) :
    (generalRow hf hl false).fst ≤ (generalRow hf hl true).fst := by
  cases hf <;> cases hl <;> decide

/-- C4: making the board-keyword predicate true while the other predicates
are unchanged never lowers the director-policy score, and making the
company predicate true while the remaining predicates are unchanged never
lowers the score of either policy. -/
theorem spec_C4_monotonicity :
    (∀ dn cn t1 t2 : Option String,
      has_first dn t1 = has_first dn t2 → has_last dn t1 = has_last dn t2 →
      has_company cn t1 = has_company cn t2 →
      has_board_keyword t1 = false → has_board_keyword t2 = true →
      (verify_director_match dn cn t1).match_score
        ≤ (verify_director_match dn cn t2).match_score)
  ∧ (∀ dn cn1 t1 cn2 t2 : Option String,
      has_first dn t1 = has_first dn t2 → has_last dn t1 = has_last dn t2 →
      has_board_keyword t1 = has_board_keyword t2 →
      has_company cn1 t1 = false → has_company cn2 t2 = true →
      (verify_director_match dn cn1 t1).match_score
        ≤ (verify_director_match dn cn2 t2).match_score)
  ∧ (∀ dn cn1 t1 cn2 t2 : Option String,
      has_first dn t1 = has_first dn t2 → has_last dn t1 = has_last dn t2 →
      has_company cn1 t1 = false → has_company cn2 t2 = true →
      (verify_name_and_company_match dn cn1 t1).match_score
        ≤ (verify_name_and_company_match dn cn2 t2).match_score) := by
  refine ⟨?_, ?_, ?_⟩
  · intro dn cn t1 t2 h1 h2 h3 hk1 hk2
    rw [director_match_score_eq, director_match_score_eq, h1, h2, h3, hk1, hk2]
    exact directorRow_mono_kw _ _ _
  · intro dn cn1 t1 cn2 t2 h1 h2 h3 hc1 hc2
    rw [director_match_score_eq, director_match_score_eq, h1, h2, h3, hc1, hc2]
    exact directorRow_mono_company _ _ _
  · intro dn cn1 t1 cn2 t2 h1 h2 hc1 hc2
    rw [general_match_score_eq, general_match_score_eq, h1, h2, hc1, hc2]
    exact generalRow_mono_company _ _

theorem spec_C4_monotonicity_witness :
    ((verify_director_match (some "John Smith") none (some "john smith ceo")).match_score
      ≤ (verify_director_match (some "John Smith") none (some "john smith director")).match_score)
  ∧ ((verify_director_match (some "John Smith") none (some "john smith ceo")).match_score
      ≤ (verify_director_match (some "John Smith") (some "Acme Widgets")
          (some "john smith at acme")).match_score)
  ∧ ((verify_name_and_company_match (some "John Smith") none (some "john smith ceo")).match_score
      ≤ (verify_name_and_company_match (some "John Smith") (some "Acme Widgets")
          (some "john smith at acme")).match_score) :=
  ⟨spec_C4_monotonicity.1 (some "John Smith") none (some "john smith ceo")
      (some "john smith director") rfl rfl rfl rfl rfl,
   spec_C4_monotonicity.2.1 (some "John Smith") none (some "john smith ceo")
      (some "Acme Widgets") (some "john smith at acme") rfl rfl rfl rfl rfl,
   spec_C4_monotonicity.2.2 (some "John Smith") none (some "john smith ceo")
      (some "Acme Widgets") (some "john smith at acme") rfl rfl rfl rfl⟩

/-- C5: clean_company_name_for_matching strips trailing legal-entity
suffixes, drops stoplisted and numeric words, keeps words longer than 3
characters or short acronyms equal to the original string, and, when the
filtered list is empty and the trimmed raw string has length 2 to 4,
returns that trimmed string lowercased as the sole significant word; in
particular "Apple Inc." maps to ["apple"], "BXP" to ["bxp"], and
"The Coca-Cola Company" to ["coca-cola"] (excluding "the" and "company"). -/
theorem spec_C5_company_cleaning :
    (∀ cn : String, company_significant_words cn = [] →
      2 ≤ (stripList cn.data).length → (stripList cn.data).length ≤ 4 →
      clean_company_name_for_matching (some cn) = [String.mk (lowerList (stripList cn.data))])
  ∧ clean_company_name_for_matching (some "Apple Inc.") = ["apple"]
  ∧ clean_company_name_for_matching (some "BXP") = ["bxp"]
  ∧ clean_company_name_for_matching (some "The Coca-Cola Company") = ["coca-cola"] := by
  refine ⟨?_, rfl, rfl, rfl⟩
  intro cn h h2 h4
  simp [clean_company_name_for_matching, h, h2, h4]

theorem spec_C5_company_cleaning_witness :
    clean_company_name_for_matching (some "of") = ["of"] :=
  spec_C5_company_cleaning.1 "of" rfl (by decide) (by decide)

theorem wordSearch_nil (w : List Char) : wordSearch w [] = false := rfl

theorem find?_wordSearch_empty (l : List String) :
    l.find? (fun fn => wordSearch fn.data (lowerList (String.data ""))) = none := by
  refine List.find?_eq_none.mpr ?_
  intro x _
  simp [show lowerList (String.data "") = ([] : List Char) from rfl, wordSearch_nil]

theorem verify_name_match_none_name (t : Option String) :
    verify_name_match none t =
      { verified := false, match_type := "none", matched_first := none, matched_last := none } := by
  cases t <;> rfl

theorem verify_name_match_none_title (dn : Option String) :
    verify_name_match dn none =
      { verified := false, match_type := "none", matched_first := none, matched_last := none } := by
  cases dn <;> rfl

theorem verify_name_match_empty_title (dn : Option String) :
    verify_name_match dn (some "") =
      { verified := false, match_type := "none", matched_first := none, matched_last := none } := by
  cases dn with
  | none => rfl
  | some d => simp [verify_name_match, find?_wordSearch_empty]

theorem verify_company_match_none_company (t : Option String) :
    verify_company_match none t = { company_matched := false, matched_words := [] } := by
  cases t <;> rfl

theorem verify_company_match_none_title (cn : Option String) :
    verify_company_match cn none = { company_matched := false, matched_words := [] } := by
  cases cn <;> rfl

theorem verify_company_match_empty_title (cn : Option String) :
    verify_company_match cn (some "") = { company_matched := false, matched_words := [] } := by
  cases cn with
  | none => rfl
  | some c =>
    have hfil : (clean_company_name_for_matching (some c)).filter
        (fun w => wordSearch w.data (lowerList (String.data ""))) = [] := by
      refine List.filter_eq_nil_iff.mpr ?_
      intro a _
      simp [show lowerList (String.data "") = ([] : List Char) from rfl, wordSearch_nil]
    by_cases h : (clean_company_name_for_matching (some c)).isEmpty
    · simp [verify_company_match, h]
    · simp [verify_company_match, h, hfil]

theorem has_first_title_none (n : Option String) : has_first n none = false := by
  simp [has_first, verify_name_match_none_title]

theorem has_last_title_none (n : Option String) : has_last n none = false := by
  simp [has_last, verify_name_match_none_title]

theorem has_first_title_empty (n : Option String) : has_first n (some "") = false := by
  simp [has_first, verify_name_match_empty_title]

theorem has_last_title_empty (n : Option String) : has_last n (some "") = false := by
  simp [has_last, verify_name_match_empty_title]

theorem has_company_title_none (c : Option String) : has_company c none = false := by
  simp [has_company, verify_company_match_none_title]

theorem has_company_title_empty (c : Option String) : has_company c (some "") = false := by
  simp [has_company, verify_company_match_empty_title]

theorem has_board_keyword_title_empty : has_board_keyword (some "") = false := rfl

/-- C6 (amended): absent or empty fields degrade to no-signal results in
the functions that consume them — empty name parts and a no-match result
for an absent/empty name, an empty word list and a false company match for
an absent/empty company, no keywords for an absent/empty title — and both
scoring policies return score 0 whenever the title is absent or empty.
(As the counterexample shows, an absent name alone does not force score 0:
a surviving company match still scores 30 WRONG_PERSON.) -/
theorem spec_C6_missing_fields :
    extract_name_parts none = { first_names := [], last_names := [] }
  ∧ extract_name_parts (some "") = { first_names := [], last_names := [] }
  ∧ clean_company_name_for_matching none = []
  ∧ clean_company_name_for_matching (some "") = []
  ∧ (∀ t, verify_name_match none t =
      { verified := false, match_type := "none", matched_first := none, matched_last := none })
  ∧ (∀ n, verify_name_match n none =
      { verified := false, match_type := "none", matched_first := none, matched_last := none })
  ∧ (∀ n, verify_name_match n (some "") =
      { verified := false, match_type := "none", matched_first := none, matched_last := none })
  ∧ (∀ t, verify_name_match (some "") t =
      { verified := false, match_type := "none", matched_first := none, matched_last := none })
  ∧ (∀ t, verify_company_match (some "") t = { company_matched := false, matched_words := [] })
  ∧ (∀ t, verify_company_match none t = { company_matched := false, matched_words := [] })
  ∧ (∀ c, verify_company_match c none = { company_matched := false, matched_words := [] })
  ∧ (∀ c, verify_company_match c (some "") = { company_matched := false, matched_words := [] })
  ∧ check_board_role_keywords none = { has_board_keyword := false, matched_keywords := [] }
  ∧ check_board_role_keywords (some "") = { has_board_keyword := false, matched_keywords := [] }
  ∧ (∀ n c, (verify_director_match n c none).match_score = 0)
  ∧ (∀ n c, (verify_director_match n c (some "")).match_score = 0)
  ∧ (∀ n c, (verify_name_and_company_match n c none).match_score = 0)
  ∧ (∀ n c, (verify_name_and_company_match n c (some "")).match_score = 0) := by
  refine ⟨rfl, rfl, rfl, rfl, verify_name_match_none_name, verify_name_match_none_title,
    verify_name_match_empty_title, fun t => by cases t <;> rfl, fun t => by cases t <;> rfl,
    verify_company_match_none_company,
    verify_company_match_none_title, verify_company_match_empty_title, rfl, rfl,
    ?_, ?_, ?_, ?_⟩
  · intro n c
    rw [director_match_score_eq, has_first_title_none, has_last_title_none,
      has_company_title_none]
    rfl
  · intro n c
    rw [director_match_score_eq, has_first_title_empty, has_last_title_empty,
      has_company_title_empty, has_board_keyword_title_empty]
    rfl
  · intro n c
    rw [general_match_score_eq, has_first_title_none, has_last_title_none,
      has_company_title_none]
    rfl
  · intro n c
    rw [general_match_score_eq, has_first_title_empty, has_last_title_empty,
      has_company_title_empty]
    rfl

/-- C6 counterexample: with an absent (NaN) director name but a present
company and title, the scoring policies do not return the claimed
no-signal score 0 — the company-only row fires and scores 30. -/
theorem spec_C6_counterexample :
    (verify_director_match none (some "Apple Inc.") (some "apple ceo")).match_score = 30
  ∧ ¬ ((verify_director_match none (some "Apple Inc.") (some "apple ceo")).match_score = 0) := by
  exact ⟨rfl, by decide⟩

theorem scoreRow_skip_eq (af : Bool) (ms : Nat) (r : UrlRow) (h : skipRow r = true) :
    scoreRow af ms r = initRow r := by
  simp [scoreRow, h]

theorem scoreRow_scored_eq (af : Bool) (ms : Nat) (r : UrlRow) (h : skipRow r = false) :
    scoreRow af ms r =
      if af && decide ((verify_director_match r.director_name r.company_name
          r.linkedin_title).match_score < ms)
      then { scoredRowOf r with linkedin_url := none, search_status := some "filtered_low_score" }
      else scoredRowOf r := by
  simp [scoreRow, h]

theorem qualityBump_no_url (c : BatchCounts) (q : QualityFlag) :
    (qualityBump c q).no_url = c.no_url := by
  cases q <;> rfl

theorem qualityBump_scoredTotal (c : BatchCounts) (q : QualityFlag) :
    scoredTotal (qualityBump c q) = scoredTotal c + 1 := by
  cases q <;> simp [qualityBump, scoredTotal] <;> omega

theorem qualityBump_no_match_eq (c : BatchCounts) (q : QualityFlag) :
    (qualityBump c q).no_match = c.no_match + (if q = QualityFlag.NO_MATCH then 1 else 0) := by
  cases q <;> simp [qualityBump]

theorem foldl_countStep_no_url (df : List UrlRow) : ∀ c : BatchCounts,
    (df.foldl countStep c).no_url = c.no_url + (df.filter (fun r => skipRow r)).length := by
  induction df with
  | nil => intro c; simp
  | cons r rest ih =>
    intro c
    rw [List.foldl_cons, ih]
    by_cases h : skipRow r = true
    · simp [List.filter_cons, h, countStep]
      omega
    · simp [List.filter_cons, h, countStep, qualityBump_no_url]

theorem foldl_countStep_scoredTotal (df : List UrlRow) : ∀ c : BatchCounts,
    scoredTotal (df.foldl countStep c) = scoredTotal c + (df.filter (fun r => !skipRow r)).length := by
  induction df with
  | nil => intro c; simp
  | cons r rest ih =>
    intro c
    rw [List.foldl_cons, ih]
    by_cases h : skipRow r = true
    · simp [List.filter_cons, h, countStep, scoredTotal]
    · simp [List.filter_cons, h, countStep, qualityBump_scoredTotal]
      omega

theorem foldl_countStep_no_match (df : List UrlRow) : ∀ c : BatchCounts,
    (df.foldl countStep c).no_match = c.no_match +
      (df.filter (fun r => !skipRow r && decide ((verify_director_match r.director_name
        r.company_name r.linkedin_title).quality_flag = QualityFlag.NO_MATCH))).length := by
  induction df with
  | nil => intro c; simp
  | cons r rest ih =>
    intro c
    rw [List.foldl_cons, ih]
    by_cases h : skipRow r = true
    · simp [List.filter_cons, h, countStep]
    · by_cases hq : (verify_director_match r.director_name r.company_name
          r.linkedin_title).quality_flag = QualityFlag.NO_MATCH
      · simp [List.filter_cons, h, hq, countStep, qualityBump_no_match_eq]
        omega
      · simp [List.filter_cons, h, hq, countStep, qualityBump_no_match_eq]

/-- C7: rows with no URL or a status other than "found" are never scored:
they keep the initialised default state (score 0, unverified, NO_MATCH
flag, URL and status untouched) and are tallied in the separate no-URL
counter; the quality-flag buckets (NO_MATCH included) count only scored
rows, and a batch in which no row has status "found" reports zero scored
rows while its no-URL tally covers the whole batch. -/
theorem spec_C7_skip_rows :
    (∀ af ms r, skipRow r = true → scoreRow af ms r = initRow r)
  ∧ (∀ df, (batch_counts df).no_url = (df.filter (fun r => skipRow r)).length)
  ∧ (∀ df, scoredTotal (batch_counts df) = (df.filter (fun r => !skipRow r)).length)
  ∧ (∀ df, (batch_counts df).no_match =
      (df.filter (fun r => !skipRow r && decide ((verify_director_match r.director_name
        r.company_name r.linkedin_title).quality_flag = QualityFlag.NO_MATCH))).length)
  ∧ (∀ af ms df, (∀ r ∈ df, r.search_status ≠ some "found") →
        scoredTotal (batch_counts df) = 0
      ∧ (batch_counts df).no_url = df.length
      ∧ ∀ r ∈ verify_url_data af ms df, r.match_score = 0 ∧ r.verified = false) := by
  have hskipAll : ∀ df : List UrlRow, (∀ r ∈ df, r.search_status ≠ some "found") →
      ∀ r ∈ df, skipRow r = true := by
    intro df h r hr
    simp [skipRow]
    exact Or.inr (h r hr)
  refine ⟨fun af ms r h => scoreRow_skip_eq af ms r h, ?_, ?_, ?_, ?_⟩
  · intro df
    simpa [batch_counts, zeroCounts] using foldl_countStep_no_url df zeroCounts
  · intro df
    simpa [batch_counts, zeroCounts, scoredTotal] using foldl_countStep_scoredTotal df zeroCounts
  · intro df
    simpa [batch_counts, zeroCounts] using foldl_countStep_no_match df zeroCounts
  · intro af ms df h
    have hsk := hskipAll df h
    refine ⟨?_, ?_, ?_⟩
    · rw [batch_counts, foldl_countStep_scoredTotal df zeroCounts]
      have : df.filter (fun r => !skipRow r) = [] := by
        refine List.filter_eq_nil_iff.mpr ?_
        intro a ha
        simp [hsk a ha]
      simp [this, zeroCounts, scoredTotal]
    · rw [batch_counts, foldl_countStep_no_url df zeroCounts]
      have : df.filter (fun r => skipRow r) = df := by
        refine List.filter_eq_self.mpr ?_
        intro a ha
        exact hsk a ha
      simp [this, zeroCounts]
    · intro r hr
      rcases List.mem_map.mp hr with ⟨r0, hr0, rfl⟩
      rw [scoreRow_skip_eq _ _ _ (hsk r0 hr0)]
      exact ⟨rfl, rfl⟩

def c7row : UrlRow :=
  { linkedin_url := some "u3", search_status := some "pending",
    director_name := some "John Smith", company_name := some "Acme Widgets",
    linkedin_title := some "john smith ceo", match_score := 0, verified := false,
    quality_flag := QualityFlag.NO_MATCH, match_type := "no_match", name_matched := false,
    company_matched := false, matched_name := none, matched_company := none,
    board_keyword_matched := false, matched_board_keywords := none }

theorem spec_C7_skip_rows_witness :
    scoreRow false 70 c7row = initRow c7row
  ∧ scoredTotal (batch_counts [c7row]) = 0
  ∧ (batch_counts [c7row]).no_url = 1
  ∧ (∀ r ∈ verify_url_data false 70 [c7row], r.match_score = 0 ∧ r.verified = false) := by
  have h := spec_C7_skip_rows.2.2.2.2 false 70 [c7row]
    (by intro r hr; rw [List.mem_singleton] at hr; subst hr; decide)
  exact ⟨spec_C7_skip_rows.1 false 70 c7row (by decide), h.1, h.2.1, h.2.2⟩

/-- C8: with the filter enabled, a scored row whose score falls below
min_match_score has exactly its URL nulled and its status replaced by the
"filtered_low_score" sentinel; every other field — the score, verified
flag, quality flag, match type and all matched-name/company/keyword
fields — keeps the value the scoring step assigned (the unfiltered result
of the same row). -/
theorem spec_C8_filter_frame (ms : Nat) (r : UrlRow) (h : skipRow r = false)
    (hlt : (verify_director_match r.director_name r.company_name
      r.linkedin_title).match_score < ms) :
    scoreRow true ms r =
      { scoreRow false ms r with
        linkedin_url := none, search_status := some "filtered_low_score" }
  ∧ (scoreRow true ms r).match_score
      = (verify_director_match r.director_name r.company_name r.linkedin_title).match_score
  ∧ (scoreRow true ms r).verified
      = (verify_director_match r.director_name r.company_name r.linkedin_title).verified
  ∧ (scoreRow true ms r).quality_flag
      = (verify_director_match r.director_name r.company_name r.linkedin_title).quality_flag
  ∧ (scoreRow true ms r).match_type
      = (verify_director_match r.director_name r.company_name r.linkedin_title).match_type
  ∧ (scoreRow true ms r).board_keyword_matched
      = (verify_director_match r.director_name r.company_name
          r.linkedin_title).board_keyword_matched
  ∧ (scoreRow true ms r).matched_name = (scoredRowOf r).matched_name
  ∧ (scoreRow true ms r).matched_company = (scoredRowOf r).matched_company
  ∧ (scoreRow true ms r).matched_board_keywords = (scoredRowOf r).matched_board_keywords := by
  have ht : scoreRow true ms r =
      { scoredRowOf r with
        linkedin_url := none, search_status := some "filtered_low_score" } := by
    rw [scoreRow_scored_eq true ms r h]
    simp [hlt]
  have hf : scoreRow false ms r = scoredRowOf r := by
    rw [scoreRow_scored_eq false ms r h]
    simp
  rw [ht, hf]
  exact ⟨rfl, rfl, rfl, rfl, rfl, rfl, rfl, rfl, rfl⟩

def c8row : UrlRow :=
  { linkedin_url := some "u1", search_status := some "found",
    director_name := some "John Smith", company_name := some "Acme Widgets",
    linkedin_title := some "john ceo", match_score := 0, verified := false,
    quality_flag := QualityFlag.NO_MATCH, match_type := "no_match", name_matched := false,
    company_matched := false, matched_name := none, matched_company := none,
    board_keyword_matched := false, matched_board_keywords := none }

theorem spec_C8_filter_frame_witness :
    scoreRow true 70 c8row =
      { scoreRow false 70 c8row with
        linkedin_url := none, search_status := some "filtered_low_score" }
  ∧ (scoreRow true 70 c8row).match_score
      = (verify_director_match c8row.director_name c8row.company_name
          c8row.linkedin_title).match_score :=
  ⟨(spec_C8_filter_frame 70 c8row rfl (by decide)).1,
   (spec_C8_filter_frame 70 c8row rfl (by decide)).2.1⟩

def c10row : UrlRow :=
  { linkedin_url := some "u2", search_status := some "found",
    director_name := some "John Smith", company_name := some "Acme Widgets",
    linkedin_title := some "john ceo", match_score := 0, verified := false,
    quality_flag := QualityFlag.NO_MATCH, match_type := "no_match", name_matched := false,
    company_matched := false, matched_name := none, matched_company := none,
    board_keyword_matched := false, matched_board_keywords := none }

/-- C10: the verified value stored on a scored row is exactly the director
policy's flag, which is (match_score >= 80), independent of
min_match_score; min_match_score can change only the URL and status fields
of the output (and only when the filter runs), and with the default
min_match_score=70 and no filtering a row can be kept — URL and status
untouched — while scoring 60 and being marked unverified. -/
theorem spec_C10_verified_policy :
    (∀ dn cn t, (verify_director_match dn cn t).verified
        = decide (80 ≤ (verify_director_match dn cn t).match_score))
  ∧ (∀ af ms r, skipRow r = false →
      (scoreRow af ms r).verified
        = (verify_director_match r.director_name r.company_name r.linkedin_title).verified)
  ∧ (∀ af ms1 ms2 r, (scoreRow af ms1 r).verified = (scoreRow af ms2 r).verified)
  ∧ (∀ af ms1 ms2 r,
        (scoreRow af ms1 r).match_score = (scoreRow af ms2 r).match_score
      ∧ (scoreRow af ms1 r).verified = (scoreRow af ms2 r).verified
      ∧ (scoreRow af ms1 r).quality_flag = (scoreRow af ms2 r).quality_flag
      ∧ (scoreRow af ms1 r).match_type = (scoreRow af ms2 r).match_type
      ∧ (scoreRow af ms1 r).name_matched = (scoreRow af ms2 r).name_matched
      ∧ (scoreRow af ms1 r).company_matched = (scoreRow af ms2 r).company_matched
      ∧ (scoreRow af ms1 r).matched_name = (scoreRow af ms2 r).matched_name
      ∧ (scoreRow af ms1 r).matched_company = (scoreRow af ms2 r).matched_company
      ∧ (scoreRow af ms1 r).board_keyword_matched = (scoreRow af ms2 r).board_keyword_matched
      ∧ (scoreRow af ms1 r).matched_board_keywords = (scoreRow af ms2 r).matched_board_keywords)
  ∧ ((scoreRow false 70 c10row).linkedin_url = c10row.linkedin_url
      ∧ (scoreRow false 70 c10row).search_status = c10row.search_status
      ∧ (scoreRow false 70 c10row).match_score = 60
      ∧ (scoreRow false 70 c10row).verified = false) := by
  have hverified : ∀ af ms r, skipRow r = false →
      (scoreRow af ms r).verified
        = (verify_director_match r.director_name r.company_name r.linkedin_title).verified := by
    intro af ms r h
    rw [scoreRow_scored_eq af ms r h]
    by_cases hc : (af && decide ((verify_director_match r.director_name r.company_name
        r.linkedin_title).match_score < ms)) = true
    · simp [hc]
      rfl
    · simp [hc]
      rfl
  have hfields : ∀ af ms1 ms2 r,
        (scoreRow af ms1 r).match_score = (scoreRow af ms2 r).match_score
      ∧ (scoreRow af ms1 r).verified = (scoreRow af ms2 r).verified
      ∧ (scoreRow af ms1 r).quality_flag = (scoreRow af ms2 r).quality_flag
      ∧ (scoreRow af ms1 r).match_type = (scoreRow af ms2 r).match_type
      ∧ (scoreRow af ms1 r).name_matched = (scoreRow af ms2 r).name_matched
      ∧ (scoreRow af ms1 r).company_matched = (scoreRow af ms2 r).company_matched
      ∧ (scoreRow af ms1 r).matched_name = (scoreRow af ms2 r).matched_name
      ∧ (scoreRow af ms1 r).matched_company = (scoreRow af ms2 r).matched_company
      ∧ (scoreRow af ms1 r).board_keyword_matched = (scoreRow af ms2 r).board_keyword_matched
      ∧ (scoreRow af ms1 r).matched_board_keywords = (scoreRow af ms2 r).matched_board_keywords := by
    intro af ms1 ms2 r
    by_cases h : skipRow r = true
    · rw [scoreRow_skip_eq af ms1 r h, scoreRow_skip_eq af ms2 r h]
      exact ⟨rfl, rfl, rfl, rfl, rfl, rfl, rfl, rfl, rfl, rfl⟩
    · rw [scoreRow_scored_eq af ms1 r (Bool.not_eq_true _ ▸ eq_false_of_ne_true h),
        scoreRow_scored_eq af ms2 r (Bool.not_eq_true _ ▸ eq_false_of_ne_true h)]
      constructor
      on_goal 2 => constructor
      all_goals
        first
        | (split <;> split <;> rfl)
        | (refine ⟨?_, ?_, ?_, ?_, ?_, ?_, ?_, ?_⟩ <;> (split <;> split <;> rfl))
  refine ⟨fun dn cn t => rfl, hverified, ?_, hfields, ?_⟩
  · intro af ms1 ms2 r
    exact (hfields af ms1 ms2 r).2.1
  · exact ⟨rfl, rfl, rfl, rfl⟩

theorem spec_C10_verified_policy_witness :
    (scoreRow false 70 c10row).verified
      = (verify_director_match c10row.director_name c10row.company_name
          c10row.linkedin_title).verified :=
  spec_C10_verified_policy.2.1 false 70 c10row rfl

end LinkedinVerification
